/-
  Verification of the ramp-control and safety-interlock subsystem of the
  TDS-T8 DAQ system.

  Shallow embedding of:
    - t8_daq_system/control/ramp_profile.py  (RampStep, RampProfile)
    - t8_daq_system/control/ramp_executor.py (RampExecutor state machine)
    - t8_daq_system/control/safety_monitor.py (SafetyMonitor; the module is
      not present in the repository snapshot, so it is modelled from the
      specification and its unit tests)

  Python floats are embedded as rationals (ℚ); Python strings as String;
  `None`-able values as Option; functions that raise ValueError as
  Except String.  Stateful methods become pure state transformers on
  explicit records; wall-clock time and the power-supply collaborator's
  success/failure behaviour are passed in as parameters (an oracle
  `PSCmd → Bool` deciding whether each issued command succeeds).  Threading,
  locking and observer callbacks are not embedded: callbacks swallow all
  exceptions in the source and never modify executor state, and the lock
  only serialises field access.
-/
import Mathlib

namespace TDS

/-! ## ramp_profile.py: RampStep -/

/-- `RampStep` dataclass from ramp_profile.py: `step_type` is the string
value of the `StepType` enum ("ramp" or "hold" when valid). -/
structure RampStep where
  step_type : String
  duration_sec : ℚ
  target_voltage : Option ℚ := none
  target_current : Option ℚ := none
deriving Repr, DecidableEq

/-- The checks of `RampStep.__post_init__`, as the exception raised (if any).
Mirrors the order of the `raise ValueError` statements in the source. -/
def RampStep.post_init_error (s : RampStep) : Option String :=
  if s.step_type ≠ "ramp" ∧ s.step_type ≠ "hold" then
    some ("Invalid step type: " ++ s.step_type ++ ". Must be ramp or hold")
  else if s.duration_sec ≤ 0 then
    some "Duration must be positive"
  else if s.step_type = "ramp" ∧ s.target_voltage = none ∧ s.target_current = none then
    some "Ramp steps must have either a target_voltage or target_current"
  else if s.target_voltage.any (· < 0) then
    some "Target voltage cannot be negative"
  else if s.target_current.any (· < 0) then
    some "Target current cannot be negative"
  else none

/-- Constructing a `RampStep` in Python runs `__post_init__`, which may raise
ValueError; constructing is therefore fallible. -/
def mkRampStep (step_type : String) (duration_sec : ℚ)
    (target_voltage : Option ℚ := none) (target_current : Option ℚ := none) :
    Except String RampStep :=
  let s : RampStep := ⟨step_type, duration_sec, target_voltage, target_current⟩
  match s.post_init_error with
  | some e => .error e
  | none => .ok s

/-- The invariant `__post_init__` enforces on every constructed `RampStep`. -/
def RampStep.invariant (s : RampStep) : Prop :=
  (s.step_type = "ramp" ∨ s.step_type = "hold") ∧
  0 < s.duration_sec ∧
  (s.step_type = "ramp" → s.target_voltage ≠ none ∨ s.target_current ≠ none) ∧
  (∀ v, s.target_voltage = some v → 0 ≤ v) ∧
  (∀ v, s.target_current = some v → 0 ≤ v)

instance (s : RampStep) : Decidable s.invariant := by
  unfold RampStep.invariant; infer_instance

/-! ## ramp_profile.py: RampProfile -/

/-- `RampProfile` from ramp_profile.py.  `control_mode` is kept as a raw
string exactly as in the source (it is compared against the enum values
"voltage" and "current").  The private `_filepath` field is file-I/O
bookkeeping and is not part of the model. -/
structure RampProfile where
  name : String := "Untitled Profile"
  description : String := ""
  start_voltage : ℚ := 0
  start_current : ℚ := 0
  current_limit : ℚ := 50
  voltage_limit : ℚ := 100
  control_mode : String := "voltage"
  steps : List RampStep := []
deriving Repr, DecidableEq

/-- `RampProfile.add_step`. -/
def RampProfile.add_step (p : RampProfile) (s : RampStep) : RampProfile :=
  { p with steps := p.steps ++ [s] }

/-- The target-resolution prologue of `RampProfile.add_ramp`: use
`target_value`, else `target_voltage`, else `target_current`, else raise. -/
def resolveTarget (target_value target_voltage target_current : Option ℚ) :
    Except String ℚ :=
  match target_value with
  | some v => .ok v
  | none => match target_voltage with
    | some v => .ok v
    | none => match target_current with
      | some v => .ok v
      | none => .error "add_ramp requires a target value"

/-- `RampProfile.add_ramp`: resolves the target, raising if none is given,
then constructs a ramp step in the field matching `control_mode` (the
constructor's ValueError propagates). -/
def RampProfile.add_ramp (p : RampProfile) (target_value : Option ℚ)
    (duration_sec : ℚ) (target_voltage : Option ℚ := none)
    (target_current : Option ℚ := none) : Except String RampProfile :=
  match resolveTarget target_value target_voltage target_current with
  | .error e => .error e
  | .ok tval =>
    match (if p.control_mode = "current" then
             mkRampStep "ramp" duration_sec none (some tval)
           else
             mkRampStep "ramp" duration_sec (some tval) none) with
    | .error e => .error e
    | .ok step => .ok (p.add_step step)

/-- `RampProfile.add_hold` (the constructor's ValueError propagates). -/
def RampProfile.add_hold (p : RampProfile) (duration_sec : ℚ) :
    Except String RampProfile :=
  match mkRampStep "hold" duration_sec none none with
  | .error e => .error e
  | .ok step => .ok (p.add_step step)

/-- `RampProfile.clear`. -/
def RampProfile.clear (p : RampProfile) : RampProfile := { p with steps := [] }

/-- `RampProfile.get_total_duration`: sum of step durations. -/
def RampProfile.get_total_duration (p : RampProfile) : ℚ :=
  (p.steps.map RampStep.duration_sec).sum

/-- Walk of `RampProfile.get_step_at_time`: first step whose window
`[cumulative, cumulative + duration)` strictly contains `elapsed`
(condition `cumulative + duration > elapsed` in the source). -/
def stepAtLoop : List RampStep → Nat → ℚ → ℚ → Option (Nat × RampStep × ℚ)
  | [], _, _, _ => none
  | s :: rest, i, cumulative, elapsed =>
    if cumulative + s.duration_sec > elapsed then
      some (i, s, elapsed - cumulative)
    else
      stepAtLoop rest (i + 1) (cumulative + s.duration_sec) elapsed

/-- `RampProfile.get_step_at_time`; the Python `(None, None, 0.0)` sentinel
for a completed profile becomes `none`. -/
def RampProfile.get_step_at_time (p : RampProfile) (elapsed_sec : ℚ) :
    Option (Nat × RampStep × ℚ) :=
  let e := if elapsed_sec < 0 then 0 else elapsed_sec
  stepAtLoop p.steps 0 0 e

/-- The per-step target in the active control mode, as read by
`get_setpoint_at_time`. -/
def stepTarget (is_current_mode : Bool) (s : RampStep) : Option ℚ :=
  if is_current_mode then s.target_current else s.target_voltage

/-- Value the walk carries past a step: a ramp step with a target in the
active mode updates `current_val` to that target; otherwise it is kept. -/
def advanceVal (is_current_mode : Bool) (current_val : ℚ) (s : RampStep) : ℚ :=
  if s.step_type = "ramp" then
    match stepTarget is_current_mode s with
    | some t => t
    | none => current_val
  else current_val

/-- The value `get_setpoint_at_time` computes inside a step, at offset
`time_into_step` from the step start, entering with value `current_val`. -/
def stepValueAt (is_current_mode : Bool) (current_val : ℚ) (s : RampStep)
    (time_into_step : ℚ) : ℚ :=
  let progress := if s.duration_sec > 0 then time_into_step / s.duration_sec else 1
  if s.step_type = "ramp" then
    match stepTarget is_current_mode s with
    | none => current_val
    | some target => current_val + (target - current_val) * progress
  else current_val

/-- The `for step in self.steps` loop of `get_setpoint_at_time`. -/
def setpointLoop (is_current_mode : Bool) :
    List RampStep → ℚ → ℚ → ℚ → ℚ
  | [], _, current_val, _ => current_val
  | s :: rest, cumulative, current_val, elapsed =>
    let step_end := cumulative + s.duration_sec
    if elapsed ≤ step_end then
      stepValueAt is_current_mode current_val s (elapsed - cumulative)
    else
      setpointLoop is_current_mode rest step_end
        (advanceVal is_current_mode current_val s) elapsed

/-- `RampProfile.get_setpoint_at_time`. -/
def RampProfile.get_setpoint_at_time (p : RampProfile) (elapsed_sec : ℚ) : ℚ :=
  let is_current_mode : Bool := p.control_mode = "current"
  let start_val := if is_current_mode then p.start_current else p.start_voltage
  if elapsed_sec ≤ 0 then start_val
  else if p.steps = [] then start_val
  else setpointLoop is_current_mode p.steps 0 start_val elapsed_sec

/-- `RampProfile.get_final_voltage`. -/
def RampProfile.get_final_voltage (p : RampProfile) : ℚ :=
  p.get_setpoint_at_time p.get_total_duration

/-! ## ramp_profile.py: validate -/

/-- The per-step error list accumulated by `RampProfile.validate` for step
`i` (0-based; messages cite `i+1` as in the source).  The `try/except`
around these checks in the source cannot fire: every expression inside is a
plain field access.  Interpolated numeric values are abstracted from the
message text; only the structure of the error list matters. -/
def stepErrors (is_current_mode : Bool) (i : Nat) (s : RampStep) : List String :=
  (if s.step_type ≠ "ramp" ∧ s.step_type ≠ "hold" then
     ["Step " ++ toString (i + 1) ++ ": Invalid step type " ++ s.step_type]
   else []) ++
  (if s.duration_sec ≤ 0 then
     ["Step " ++ toString (i + 1) ++ ": Duration must be positive"]
   else []) ++
  (if s.step_type = "ramp" then
     if is_current_mode then
       match s.target_current with
       | none => ["Step " ++ toString (i + 1) ++ ": Ramp step in current mode missing target_current"]
       | some t =>
         if t < 0 then ["Step " ++ toString (i + 1) ++ ": Target current cannot be negative"] else []
     else
       match s.target_voltage with
       | none => ["Step " ++ toString (i + 1) ++ ": Ramp step in voltage mode missing target_voltage"]
       | some t =>
         if t < 0 then ["Step " ++ toString (i + 1) ++ ": Target voltage cannot be negative"] else []
   else [])

/-- `RampProfile.validate`: returns `(is_valid, errors)` with
`is_valid = (errors = [])`. -/
def RampProfile.validate (p : RampProfile) : Bool × List String :=
  let errors :=
    (if p.steps = [] then ["Profile has no steps"] else []) ++
    (if p.control_mode ≠ "voltage" ∧ p.control_mode ≠ "current" then
       ["Invalid control mode: " ++ p.control_mode] else []) ++
    (if p.start_voltage < 0 then ["Start voltage cannot be negative"] else []) ++
    (if p.start_current < 0 then ["Start current cannot be negative"] else []) ++
    (if p.current_limit ≤ 0 then ["Current limit must be positive"] else []) ++
    (if p.voltage_limit ≤ 0 then ["Voltage limit must be positive"] else []) ++
    (p.steps.enum.map fun is => stepErrors (p.control_mode = "current") is.1 is.2).flatten
  (errors.isEmpty, errors)

/-! ## ramp_profile.py: serialization

The plain-dict JSON form is modelled structurally: each possible key is an
`Option` field, `none` meaning the key is absent.  `data.get(key, default)`
becomes `Option.getD`. -/

/-- Dictionary form of a `RampStep` (`RampStep.to_dict` / `from_dict`). -/
structure StepDict where
  type : Option String := none
  duration_sec : Option ℚ := none
  target_voltage : Option ℚ := none
  target_current : Option ℚ := none
deriving Repr, DecidableEq

/-- `RampStep.to_dict`: always writes `type` and `duration_sec`; writes each
target key only when the field is not None. -/
def RampStep.to_dict (s : RampStep) : StepDict :=
  { type := some s.step_type
    duration_sec := some s.duration_sec
    target_voltage := s.target_voltage
    target_current := s.target_current }

/-- `RampStep.from_dict`: reads with defaults `"hold"` and `0`, then runs the
constructor (which validates via `__post_init__`). -/
def RampStep.from_dict (d : StepDict) : Except String RampStep :=
  mkRampStep (d.type.getD "hold") (d.duration_sec.getD 0)
    d.target_voltage d.target_current

/-- Dictionary form of a `RampProfile`. -/
structure ProfileDict where
  name : Option String := none
  description : Option String := none
  control_mode : Option String := none
  start_voltage : Option ℚ := none
  start_current : Option ℚ := none
  current_limit : Option ℚ := none
  voltage_limit : Option ℚ := none
  steps : Option (List StepDict) := none
deriving Repr, DecidableEq

/-- `RampProfile.to_dict`: writes every field. -/
def RampProfile.to_dict (p : RampProfile) : ProfileDict :=
  { name := some p.name
    description := some p.description
    control_mode := some p.control_mode
    start_voltage := some p.start_voltage
    start_current := some p.start_current
    current_limit := some p.current_limit
    voltage_limit := some p.voltage_limit
    steps := some (p.steps.map RampStep.to_dict) }

/-- `RampProfile.from_dict`: constructs the profile with defaults for the
scalar fields, then appends each step built by `RampStep.from_dict` (a step
whose construction raises aborts the whole load). -/
def RampProfile.from_dict (d : ProfileDict) : Except String RampProfile := do
  let steps ← (d.steps.getD []).mapM RampStep.from_dict
  return { name := d.name.getD "Untitled Profile"
           description := d.description.getD ""
           control_mode := d.control_mode.getD "voltage"
           start_voltage := d.start_voltage.getD 0
           start_current := d.start_current.getD 0
           current_limit := d.current_limit.getD 50
           voltage_limit := d.voltage_limit.getD 100
           steps := steps }

/-! ## ramp_executor.py: RampExecutor

The power-supply collaborator is modelled by the list of commands issued
to it plus an oracle `PSCmd → Bool` deciding whether each issued command
succeeds (`false` = the Python call raises).  `time.time()` values are
passed in explicitly.  The background thread is modelled by running
`runLoop` over the list of elapsed-time samples its successive iterations
observe; an empty remainder of that list models the stop event being set. -/

/-- A command sent to the power-supply collaborator. -/
inductive PSCmd where
  | set_voltage (v : ℚ)
  | set_current (i : ℚ)
  | output_off
deriving Repr, DecidableEq

/-- `ExecutorState` enum from ramp_executor.py. -/
inductive ExecutorState where
  | idle
  | running
  | paused
  | completed
  | error
  | aborted
deriving Repr, DecidableEq

/-- The state of a `RampExecutor` (the fields guarded by `self._lock`,
plus whether a power-supply collaborator is attached).  Thread handles and
events are represented by the run-loop model rather than stored. -/
structure RampExecutor where
  has_power_supply : Bool := false
  state : ExecutorState := .idle
  profile : Option RampProfile := none
  start_time : Option ℚ := none
  pause_time : Option ℚ := none
  paused_elapsed : ℚ := 0
  current_setpoint : ℚ := 0
  current_step_index : Nat := 0
  error_message : String := ""
deriving Repr, DecidableEq

/-- `RampExecutor.is_running`: true exactly in the RUNNING state (the
docstring notes this deliberately excludes PAUSED). -/
def RampExecutor.is_running (ex : RampExecutor) : Bool :=
  ex.state = .running

/-- `RampExecutor.is_active`: RUNNING or PAUSED. -/
def RampExecutor.is_active (ex : RampExecutor) : Bool :=
  ex.state = .running ∨ ex.state = .paused

/-- `RampExecutor.load_profile`: rejected only when `is_running()`;
otherwise validates, and on success stores the profile, resets the step
index to 0, sets the setpoint to `profile.start_voltage` (unconditionally,
whatever the control mode), clears the error message and sets state IDLE. -/
def RampExecutor.load_profile (ex : RampExecutor) (p : RampProfile) :
    Bool × RampExecutor :=
  if ex.is_running then (false, ex)
  else if ¬ (p.validate).1 then (false, ex)
  else
    (true, { ex with
      profile := some p
      current_step_index := 0
      current_setpoint := p.start_voltage
      error_message := ""
      state := .idle })

/-- The `try: set_voltage(0); set_current(0); output_off() except: pass`
block shared by `stop()` and the normal-completion path: commands are
issued in order and the first failure abandons the rest (the exception is
swallowed).  Every attempted command appears in the returned trace. -/
def zeroOffCmds (oracle : PSCmd → Bool) : List PSCmd :=
  if ¬ oracle (.set_voltage 0) then [.set_voltage 0]
  else if ¬ oracle (.set_current 0) then [.set_voltage 0, .set_current 0]
  else [.set_voltage 0, .set_current 0, .output_off]

/-- `RampExecutor.stop`: unconditionally zeroes/turns off the supply (when
attached), clears run bookkeeping and transitions to ABORTED; always
returns True.  (Signalling the stop event and joining the thread have no
effect on the modelled fields.) -/
def RampExecutor.stop (ex : RampExecutor) (oracle : PSCmd → Bool) :
    Bool × RampExecutor × List PSCmd :=
  let cmds := if ex.has_power_supply then zeroOffCmds oracle else []
  (true,
   { ex with
     start_time := none
     pause_time := none
     paused_elapsed := 0
     current_step_index := 0
     state := .aborted },
   cmds)

/-- `RampExecutor.pause` at wall time `now`. -/
def RampExecutor.pause (ex : RampExecutor) (now : ℚ) :
    Bool × RampExecutor :=
  if ex.state ≠ .running then (false, ex)
  else (true, { ex with pause_time := some now, state := .paused })

/-- `RampExecutor.resume` at wall time `now`. -/
def RampExecutor.resume (ex : RampExecutor) (now : ℚ) :
    Bool × RampExecutor :=
  if ex.state ≠ .paused then (false, ex)
  else
    let ex' := match ex.pause_time with
      | some t => { ex with paused_elapsed := ex.paused_elapsed + (now - t), pause_time := none }
      | none => ex
    (true, { ex' with state := .running })

/-- `RampExecutor.start` at wall time `now`.  Returns
`(return value, new executor, commands issued, thread launched)`.
With a supply attached it first programs the opposite-mode limit
(`set_voltage(voltage_limit)` in current mode, `set_current(current_limit)`
in voltage mode); if that command raises, it records the error, moves to
ERROR and returns False without launching the run loop.  Otherwise it
resets the timing bookkeeping, sets the setpoint to the mode's start value
and transitions to RUNNING before the thread starts. -/
def RampExecutor.start (ex : RampExecutor) (oracle : PSCmd → Bool) (now : ℚ) :
    Bool × RampExecutor × List PSCmd × Bool :=
  match ex.profile with
  | none => (false, ex, [], false)
  | some p =>
    if ex.state = .running then (false, ex, [], false)
    else if ex.state = .paused then
      let (r, ex') := ex.resume now
      (r, ex', [], false)
    else
      let limits : Bool × RampExecutor × List PSCmd :=
        if ex.has_power_supply then
          if p.control_mode = "current" then
            let c := PSCmd.set_voltage p.voltage_limit
            if oracle c then (true, { ex with current_setpoint := p.start_current }, [c])
            else (false, { ex with
                   error_message := "Failed to set initial power supply limits"
                   state := .error }, [c])
          else
            let c := PSCmd.set_current p.current_limit
            if oracle c then (true, { ex with current_setpoint := p.start_voltage }, [c])
            else (false, { ex with
                   error_message := "Failed to set initial power supply limits"
                   state := .error }, [c])
        else (true, ex, [])
      let (ok, ex1, tr) := limits
      if ¬ ok then (false, ex1, tr, false)
      else
        let ex2 := { ex1 with
          start_time := some now
          paused_elapsed := 0
          current_step_index := 0
          current_setpoint :=
            if p.control_mode = "current" then p.start_current else p.start_voltage
          state := .running }
        (true, ex2, tr, true)

/-- The tail of `_run_loop` after the while loop exits via `break` (the
stop event is not set): zero the supply, zero the recorded setpoint,
transition to COMPLETED. -/
def completePath (ex : RampExecutor) (oracle : PSCmd → Bool) :
    RampExecutor × List PSCmd :=
  let cmds := if ex.has_power_supply then zeroOffCmds oracle else []
  ({ ex with current_setpoint := 0, state := .completed }, cmds)

/-- `RampExecutor._run_loop`.  `ticks` is the sequence of elapsed-time
values (`get_elapsed_time()` results) observed by the successive loop
iterations; exhausting it without a `break` models the stop event being
set (the loop then exits without running the completion path).  Pause
polling iterations touch no state and are elided.  Observer callbacks
swallow exceptions in the source and never change executor state, so they
are not modelled. -/
def runLoop (oracle : PSCmd → Bool) :
    RampExecutor → List ℚ → RampExecutor × List PSCmd
  | ex, [] => (ex, [])
  | ex, elapsed :: rest =>
    match ex.profile with
    | none => completePath ex oracle
    | some p =>
      if elapsed ≥ p.get_total_duration then
        completePath { ex with current_setpoint := p.get_final_voltage } oracle
      else
        let sp := p.get_setpoint_at_time elapsed
        let idx := match p.get_step_at_time elapsed with
          | some info => info.1
          | none => ex.current_step_index
        let ex' := { ex with current_setpoint := sp, current_step_index := idx }
        if ex'.has_power_supply then
          let is_current_mode : Bool := p.control_mode = "current"
          let cmd := if is_current_mode then PSCmd.set_current sp else PSCmd.set_voltage sp
          if oracle cmd then
            let res := runLoop oracle ex' rest
            (res.1, cmd :: res.2)
          else
            ({ ex' with
               error_message :=
                 "Failed to set " ++ (if is_current_mode then "current" else "voltage")
               state := .error },
             [cmd])
        else
          runLoop oracle ex' rest

/-- A full `start()` followed by the background thread's loop iterations:
the combined command trace the power supply sees, in order. -/
def fullRun (ex : RampExecutor) (oracle : PSCmd → Bool) (now : ℚ)
    (ticks : List ℚ) : RampExecutor × List PSCmd :=
  let (_, ex', tr, launched) := ex.start oracle now
  if launched then
    let (ex2, tr2) := runLoop oracle ex' ticks
    (ex2, tr ++ tr2)
  else (ex', tr)

/-! ## safety_monitor.py: SafetyMonitor (modelled from the spec) -/

/-- Modelled from the spec: `SafetyStatus` of the missing module
t8_daq_system/control/safety_monitor.py — "Ok, Warning, ShutdownTriggered
(ShutdownTriggered is sticky until explicit reset)". -/
inductive SafetyStatus where
  | ok
  | warning
  | shutdown_triggered
deriving Repr, DecidableEq

/-- Modelled from the spec: `SafetyEvent` — "sensor_name, observed value,
limit, timestamp — appended to a history log on every triggering
violation".  The wall-clock timestamp is not modelled. -/
structure SafetyEvent where
  sensor_name : String
  value : ℚ
  limit : ℚ
deriving Repr, DecidableEq

/-- Modelled from the spec: the state of the missing `SafetyMonitor` class
(t8_daq_system/control/safety_monitor.py is absent from the snapshot; only
its unit tests and this import survive).  Per-sensor limits are kept as an
ordered association list (checked in configuration order); the per-sensor
consecutive-violation counters as a total map defaulting to 0.
`shutdown_invocations` counts calls to the power-supply collaborator's
`emergency_shutdown()`. -/
structure SafetyMonitor where
  has_power_supply : Bool := false
  enabled : Bool := true
  auto_shutoff : Bool := true
  temperature_limits : List (String × ℚ) := []
  watchdog_sensor : Option String := none
  debounce_count : Nat := 1
  warning_threshold : ℚ := 1
  violation_counts : String → Nat := fun _ => 0
  status : SafetyStatus := .ok
  event_history : List SafetyEvent := []
  shutdown_invocations : Nat := 0

/-- Modelled from the spec: a triggering violation — status becomes
ShutdownTriggered (sticky), a SafetyEvent is appended to history, and the
collaborator's emergency shutdown is invoked only when `auto_shutoff` is
enabled and a power supply is attached. -/
def SafetyMonitor.triggerShutdown (m : SafetyMonitor) (name : String)
    (value limit : ℚ) : SafetyMonitor :=
  { m with
    status := .shutdown_triggered
    event_history := m.event_history ++ [⟨name, value, limit⟩]
    shutdown_invocations :=
      m.shutdown_invocations + (if m.auto_shutoff ∧ m.has_power_supply then 1 else 0) }

/-- Modelled from the spec: overwrite one sensor's consecutive-violation
counter. -/
def SafetyMonitor.setCount (m : SafetyMonitor) (name : String) (c : Nat) :
    SafetyMonitor :=
  { m with violation_counts := fun x => if x = name then c else m.violation_counts x }

/-- Modelled from the spec: processing of one configured sensor inside
`check_limits`.  A missing entry, a None value or the hardware
"disconnected" sentinel (-9999, per test_safety_monitor.py) is skipped.
A present value ≥ limit is a violation: the watchdog sensor triggers
immediately; any other sensor increments its consecutive-violation counter
and triggers once the counter reaches `debounce_count`.  A non-violating
reading resets the counter; a reading at or above
`warning_threshold × limit` (but below the limit) moves status to Warning
when not already shut down.  Returns (triggered this sensor, new state). -/
def SafetyMonitor.checkSensor (m : SafetyMonitor)
    (readings : List (String × Option ℚ)) (name : String) (limit : ℚ) :
    Bool × SafetyMonitor :=
  match (readings.find? (fun r => r.1 = name)).map Prod.snd with
  | none => (false, m)
  | some none => (false, m)
  | some (some v) =>
    if v = -9999 then (false, m)
    else if v ≥ limit then
      if m.watchdog_sensor = some name then
        (true, m.triggerShutdown name v limit)
      else
        let cnt := m.violation_counts name + 1
        let m1 := m.setCount name cnt
        if cnt ≥ m.debounce_count then (true, m1.triggerShutdown name v limit)
        else (false, m1)
    else
      let m1 := m.setCount name 0
      if v ≥ m.warning_threshold * limit ∧ m.status ≠ .shutdown_triggered then
        (false, { m1 with status := .warning })
      else (false, m1)

/-- Modelled from the spec: the accumulator step of `check_limits` over the
configured sensors — the overall "triggered" flag is the disjunction of
the per-sensor results, threading the monitor state. -/
def checkFold (readings : List (String × Option ℚ))
    (acc : Bool × SafetyMonitor) (entry : String × ℚ) : Bool × SafetyMonitor :=
  let res := acc.2.checkSensor readings entry.1 entry.2
  (acc.1 || res.1, res.2)

/-- Modelled from the spec: `SafetyMonitor.check_limits` — when disabled it
bypasses all checking and returns true; otherwise every configured sensor
is checked against the supplied readings, and the call returns false
exactly when a triggering violation occurred on this call. -/
def SafetyMonitor.check_limits (m : SafetyMonitor)
    (readings : List (String × Option ℚ)) : Bool × SafetyMonitor :=
  if ¬ m.enabled then (true, m)
  else
    let result := m.temperature_limits.foldl (checkFold readings) (false, m)
    (! result.1, result.2)

/-- Modelled from the spec: `reset()` clears ShutdownTriggered back to Ok
without clearing configured limits. -/
def SafetyMonitor.reset (m : SafetyMonitor) : SafetyMonitor :=
  { m with status := .ok }

/-! ## Derived notions used by the verification -/

/-- Whether a profile is in current mode (the comparison
`control_mode == ControlMode.CURRENT.value` used throughout the source). -/
def RampProfile.isCurrentMode (p : RampProfile) : Bool :=
  p.control_mode = "current"

/-- The mode's start value (`start_current` in current mode, else
`start_voltage`). -/
def RampProfile.startVal (p : RampProfile) : ℚ :=
  if p.isCurrentMode then p.start_current else p.start_voltage

/-- Cumulative duration of the first `n` steps: the elapsed time at which
segment `n-1` ends and segment `n` begins. -/
def RampProfile.boundary (p : RampProfile) (n : Nat) : ℚ :=
  ((p.steps.take n).map RampStep.duration_sec).sum

/-- The value the interpolation walk carries after the first `n` steps:
the ending value of segment `n-1` and the entry value of segment `n`. -/
def RampProfile.valueAfter (p : RampProfile) (n : Nat) : ℚ :=
  (p.steps.take n).foldl (advanceVal p.isCurrentMode) p.startVal

/-! ## Concrete fixtures -/

/-- The trajectory of spec §8 / claim C1: voltage mode, start value 0,
segments Ramp(target 10, duration 10), Hold(duration 5),
Ramp(target 0, duration 10). -/
def profileC1 : RampProfile :=
  { name := "C1"
    control_mode := "voltage"
    start_voltage := 0
    steps :=
      [ ⟨"ramp", 10, some 10, none⟩,
        ⟨"hold", 5, none, none⟩,
        ⟨"ramp", 10, some 0, none⟩ ] }

/-! # Claims -/

/-- C1: for the voltage-mode profile with start value 0 and steps
[Ramp(target=10, duration=10), Hold(duration=5), Ramp(target=0,
duration=10)], `get_setpoint_at_time` returns 5.0 at elapsed 5, 10.0 at
elapsed 12, 5.0 at elapsed 20, 0.0 at elapsed 25 and 0.0 at elapsed 100
(past the end). -/
theorem claim_C1_setpoint_values :
    profileC1.get_setpoint_at_time 5 = 5 ∧
    profileC1.get_setpoint_at_time 12 = 10 ∧
    profileC1.get_setpoint_at_time 20 = 5 ∧
    profileC1.get_setpoint_at_time 25 = 0 ∧
    profileC1.get_setpoint_at_time 100 = 0 := by
  refine ⟨?_, ?_, ?_, ?_, ?_⟩ <;>
    norm_num +decide [profileC1, RampProfile.get_setpoint_at_time, setpointLoop,
      stepValueAt, advanceVal, stepTarget]

/-! ### Lemmas about validated profiles and the interpolation walk -/

/-- A step list with positive durations and at least one step has positive
total duration. -/
theorem sum_durations_pos (l : List RampStep) (hne : l ≠ [])
    (hpos : ∀ s ∈ l, 0 < s.duration_sec) :
    0 < (l.map RampStep.duration_sec).sum := by
  apply List.sum_pos
  · intro x hx
    obtain ⟨s, hs, rfl⟩ := List.mem_map.mp hx
    exact hpos s hs
  · simpa using hne

/-- At offset `duration_sec` (the end of the step), the in-step value is the
step's ending value. -/
theorem stepValueAt_duration (isCur : Bool) (v : ℚ) (s : RampStep)
    (hd : 0 < s.duration_sec) :
    stepValueAt isCur v s s.duration_sec = advanceVal isCur v s := by
  simp only [stepValueAt, advanceVal, if_pos hd, div_self (ne_of_gt hd)]
  split
  · cases h : stepTarget isCur s <;> simp [h]
  · rfl

/-- At offset 0 (the start of the step), the in-step value is the entry
value. -/
theorem stepValueAt_zero (isCur : Bool) (v : ℚ) (s : RampStep)
    (hd : 0 < s.duration_sec) :
    stepValueAt isCur v s 0 = v := by
  simp only [stepValueAt, if_pos hd, zero_div]
  split
  · cases h : stepTarget isCur s <;> simp [h]
  · rfl

/-- For positive durations, the interpolation walk evaluated exactly at the
cumulative end of segment `k` yields the value carried past the first
`k + 1` segments. -/
theorem setpointLoop_boundary (isCur : Bool) :
    ∀ (steps : List RampStep) (k : Nat) (c v : ℚ),
      (∀ s ∈ steps, 0 < s.duration_sec) → k < steps.length →
      setpointLoop isCur steps c v
          (c + ((steps.take (k + 1)).map RampStep.duration_sec).sum)
        = (steps.take (k + 1)).foldl (advanceVal isCur) v
  | [], k, _, _, _, hk => absurd hk (by simp)
  | s :: rest, 0, c, v, hpos, _ => by
    have hd : 0 < s.duration_sec := hpos s (by simp)
    simp only [List.take, List.map_cons, List.map_nil, List.sum_cons, List.sum_nil,
      add_zero, List.foldl_cons, List.foldl_nil, setpointLoop, le_refl, if_pos,
      add_sub_cancel_left]
    exact stepValueAt_duration isCur v s hd
  | s :: rest, k + 1, c, v, hpos, hk => by
    have hlen : k < rest.length := by simpa using Nat.lt_of_succ_lt_succ hk
    have htake_ne : rest.take (k + 1) ≠ [] := by
      apply List.ne_nil_of_length_pos
      simp only [List.length_take]
      omega
    have hS : 0 < ((rest.take (k + 1)).map RampStep.duration_sec).sum := by
      apply sum_durations_pos _ htake_ne
      intro x hx
      exact hpos x (List.mem_cons_of_mem s (List.take_subset _ _ hx))
    simp only [List.take, List.map_cons, List.sum_cons, List.foldl_cons, setpointLoop]
    rw [if_neg (by linarith), ← add_assoc]
    exact setpointLoop_boundary isCur rest k (c + s.duration_sec)
      (advanceVal isCur v s) (fun x hx => hpos x (List.mem_cons_of_mem s hx)) hlen

/-- `validate` collects, for each step, an error list that is empty only if
that step's checks pass. -/
theorem enumFrom_stepErrors_nil (isCur : Bool) :
    ∀ (n : Nat) (l : List RampStep),
      ((List.enumFrom n l).map fun is => stepErrors isCur is.1 is.2).flatten = [] →
      ∀ s ∈ l, ∃ i, stepErrors isCur i s = []
  | _, [], _, s, hs => absurd hs (by simp)
  | n, a :: rest, h, s, hs => by
    rw [List.enumFrom_cons] at h
    simp only [List.map_cons, List.flatten_cons, List.append_eq_nil] at h
    rcases List.mem_cons.mp hs with rfl | hmem
    · exact ⟨n, h.1⟩
    · exact enumFrom_stepErrors_nil isCur (n + 1) rest h.2 s hmem

/-- An empty per-step error list forces a positive duration. -/
theorem stepErrors_nil_duration {isCur : Bool} {i : Nat} {s : RampStep}
    (h : stepErrors isCur i s = []) : 0 < s.duration_sec := by
  by_contra hneg
  push_neg at hneg
  simp only [stepErrors, List.append_eq_nil] at h
  rw [if_pos hneg] at h
  exact absurd h.1.2 (by simp)

/-- A profile that passes `validate()` has only positive step durations. -/
theorem validate_durations_pos (p : RampProfile)
    (hval : (p.validate).1 = true) : ∀ s ∈ p.steps, 0 < s.duration_sec := by
  intro s hs
  simp only [RampProfile.validate, List.isEmpty_iff, List.append_eq_nil] at hval
  have hflat := hval.2
  rw [show p.steps.enum = List.enumFrom 0 p.steps from rfl] at hflat
  obtain ⟨i, hi⟩ := enumFrom_stepErrors_nil _ 0 p.steps hflat s hs
  exact stepErrors_nil_duration hi

/-- A profile that passes `validate()` has at least one step. -/
theorem validate_steps_ne_nil (p : RampProfile)
    (hval : (p.validate).1 = true) : p.steps ≠ [] := by
  simp only [RampProfile.validate, List.isEmpty_iff, List.append_eq_nil] at hval
  intro hnil
  have := hval.1.1.1.1.1.1
  rw [if_pos hnil] at this
  exact absurd this (by simp)

/-- C2: for every profile that passes `validate()`, `get_setpoint_at_time`
is continuous at every segment boundary: the value at the cumulative end of
segment `k` equals segment `k`'s ending value (which is exactly the value
segment `k+1` starts from), and the in-segment value of segment `k` at its
end agrees with the in-segment value of segment `k+1` at its start — no
jump discontinuity at any boundary. -/
theorem claim_C2_boundary_continuity (p : RampProfile)
    (hval : (p.validate).1 = true) (k : Nat) (hk : k < p.steps.length) :
    p.get_setpoint_at_time (p.boundary (k + 1)) = p.valueAfter (k + 1) ∧
    ∀ hk1 : k + 1 < p.steps.length,
      stepValueAt p.isCurrentMode (p.valueAfter k) (p.steps.get ⟨k, hk⟩)
          ((p.steps.get ⟨k, hk⟩).duration_sec)
        = stepValueAt p.isCurrentMode (p.valueAfter (k + 1)) (p.steps.get ⟨k + 1, hk1⟩) 0 := by
  have hpos := validate_durations_pos p hval
  have htake_ne : p.steps.take (k + 1) ≠ [] := by
    apply List.ne_nil_of_length_pos
    simp only [List.length_take]
    omega
  have hbpos : 0 < ((p.steps.take (k + 1)).map RampStep.duration_sec).sum := by
    apply sum_durations_pos _ htake_ne
    intro x hx
    exact hpos x (List.take_subset _ _ hx)
  have hne : p.steps ≠ [] := validate_steps_ne_nil p hval
  have hmain : p.get_setpoint_at_time (p.boundary (k + 1)) = p.valueAfter (k + 1) := by
    simp only [RampProfile.get_setpoint_at_time, RampProfile.valueAfter,
      RampProfile.boundary, RampProfile.isCurrentMode, RampProfile.startVal]
    rw [if_neg (not_le.mpr hbpos), if_neg hne]
    have hloop := setpointLoop_boundary (decide (p.control_mode = "current")) p.steps k 0
      (if decide (p.control_mode = "current") = true then p.start_current else p.start_voltage)
      hpos hk
    rw [zero_add] at hloop
    exact hloop
  refine ⟨hmain, fun hk1 => ?_⟩
  have hdk : 0 < (p.steps.get ⟨k, hk⟩).duration_sec := hpos _ (List.get_mem _ _ hk)
  have hdk1 : 0 < (p.steps.get ⟨k + 1, hk1⟩).duration_sec := hpos _ (List.get_mem _ _ hk1)
  rw [stepValueAt_duration _ _ _ hdk, stepValueAt_zero _ _ _ hdk1]
  have htake : p.steps.take (k + 1) = p.steps.take k ++ [p.steps.get ⟨k, hk⟩] := by
    rw [← List.take_concat_get p.steps k hk, List.concat_eq_append, List.get_eq_getElem]
  simp only [RampProfile.valueAfter, htake, List.foldl_append, List.foldl_cons,
    List.foldl_nil]

/-- Witness for C2 at the concrete validated profile of claim C1, boundary
after segment 0 (elapsed 10, value 10). -/
theorem claim_C2_witness :
    (profileC1.validate).1 = true ∧ 0 < profileC1.steps.length ∧
    profileC1.get_setpoint_at_time (profileC1.boundary 1) = profileC1.valueAfter 1 := by
  have h1 : (profileC1.validate).1 = true := by decide
  have h2 : 0 < profileC1.steps.length := by decide
  exact ⟨h1, h2, (claim_C2_boundary_continuity profileC1 h1 0 h2).1⟩

/-! ### Executor fixtures -/

/-- A valid current-mode profile whose start current (2 A) differs from its
start voltage (0 V). -/
def profileCur : RampProfile :=
  { name := "cur"
    control_mode := "current"
    start_voltage := 0
    start_current := 2
    steps := [⟨"ramp", 10, none, some 5⟩] }

/-- An executor paused in the middle of a run of `profileCur`. -/
def pausedExecutor : RampExecutor :=
  { has_power_supply := false
    state := .paused
    profile := some profileCur
    start_time := some 0
    pause_time := some 3
    current_setpoint := 3
    current_step_index := 0 }

/-- C3 claims `load_profile` returns false whenever the state is Running or
Paused.  Counterexample: a Paused executor accepts a new valid profile
(`is_running()` checks only RUNNING), returns true and overwrites the
previously loaded profile. -/
theorem claim_C3_counterexample :
    pausedExecutor.state = .paused ∧
    (pausedExecutor.load_profile profileC1).1 = true ∧
    (pausedExecutor.load_profile profileC1).2.profile = some profileC1 := by
  refine ⟨rfl, ?_, ?_⟩ <;> decide

/-- C3 (amended): `load_profile` returns false, leaving the executor
unchanged, whenever the state is Running; a Paused executor is not
rejected by the state check. -/
theorem claim_C3_amended_reject_running (ex : RampExecutor) (p : RampProfile)
    (h : ex.state = .running) :
    ex.load_profile p = (false, ex) := by
  simp [RampExecutor.load_profile, RampExecutor.is_running, h]

/-- Witness for C3 (amended): a concrete Running executor rejects a load
and is unchanged. -/
theorem claim_C3_witness :
    ({ pausedExecutor with state := .running } : RampExecutor).state = .running ∧
    ({ pausedExecutor with state := .running } : RampExecutor).load_profile profileC1
      = (false, { pausedExecutor with state := .running }) :=
  ⟨rfl, claim_C3_amended_reject_running _ profileC1 rfl⟩

/-- C4 claims that after a successful load the setpoint equals the mode's
start value.  Counterexample: loading the valid current-mode `profileCur`
(start_current = 2) leaves the setpoint at `start_voltage = 0`:
`load_profile` assigns `profile.start_voltage` unconditionally. -/
theorem claim_C4_counterexample :
    profileCur.control_mode = "current" ∧
    (profileCur.validate).1 = true ∧
    (({} : RampExecutor).load_profile profileCur).1 = true ∧
    (({} : RampExecutor).load_profile profileCur).2.current_setpoint = 0 ∧
    profileCur.start_current = 2 := by
  refine ⟨rfl, ?_, ?_, ?_, rfl⟩ <;> decide

/-- C4 (amended): after `load_profile` returns true the step index is 0 and
the setpoint equals `profile.start_voltage`, whatever the control mode
(this coincides with the mode's start value only in voltage mode); the
profile is stored and the state is IDLE. -/
theorem claim_C4_amended_load_resets (ex : RampExecutor) (p : RampProfile)
    (ex' : RampExecutor) (h : ex.load_profile p = (true, ex')) :
    ex'.current_step_index = 0 ∧ ex'.current_setpoint = p.start_voltage ∧
    ex'.profile = some p ∧ ex'.state = .idle := by
  unfold RampExecutor.load_profile at h
  split at h
  · simp at h
  · split at h
    · simp at h
    · obtain ⟨-, rfl⟩ := Prod.mk.injEq .. ▸ h
      exact ⟨rfl, rfl, rfl, rfl⟩

/-- Witness for C4 (amended) at a fresh executor loading `profileCur`. -/
theorem claim_C4_witness :
    (({} : RampExecutor).load_profile profileCur
        = (true, (({} : RampExecutor).load_profile profileCur).2)) ∧
    ((({} : RampExecutor).load_profile profileCur).2.current_step_index = 0 ∧
     (({} : RampExecutor).load_profile profileCur).2.current_setpoint
        = profileCur.start_voltage ∧
     (({} : RampExecutor).load_profile profileCur).2.profile = some profileCur ∧
     (({} : RampExecutor).load_profile profileCur).2.state = .idle) :=
  ⟨by decide, claim_C4_amended_load_resets {} profileCur _ (by decide)⟩

/-- C7 claims stop() from Idle changes nothing observable.  Counterexample:
a fresh Idle executor transitions to ABORTED on stop(). -/
theorem claim_C7_counterexample :
    ({} : RampExecutor).state = .idle ∧
    ((({} : RampExecutor).stop (fun _ => true)).2.1).state = .aborted := by
  exact ⟨rfl, rfl⟩

/-- C7 (amended): `stop()` always transitions to Aborted and clears run
bookkeeping, so calling it from Idle does change the observable state; it
is idempotent thereafter: a second stop() after a prior stop returns the
identical result — the same executor state and the same (redundant)
zero-setpoint and output-off command sequence. -/
theorem claim_C7_amended_stop_idempotent (ex : RampExecutor)
    (oracle : PSCmd → Bool) :
    ((ex.stop oracle).2.1).stop oracle = ex.stop oracle := by
  rfl

/-! ### The power-supply command traces of start() and the run loop -/

/-- The protective opposite-mode limit command `start()` programs first:
the voltage ceiling when ramping current, the current ceiling when ramping
voltage. -/
def limitCmd (p : RampProfile) : PSCmd :=
  if p.isCurrentMode then .set_voltage p.voltage_limit else .set_current p.current_limit

/-- The setpoint command the scheduling loop issues each tick. -/
def loopSetpointCmd (p : RampProfile) (sp : ℚ) : PSCmd :=
  if p.isCurrentMode then .set_current sp else .set_voltage sp

/-- The executor state recorded when a scheduling-loop setpoint command
fails: setpoint and step index were already updated for this tick, the
error message is recorded, and the state is ERROR. -/
def runLoopErrState (ex : RampExecutor) (p : RampProfile) (elapsed : ℚ) :
    RampExecutor :=
  { ex with
    current_setpoint := p.get_setpoint_at_time elapsed
    current_step_index :=
      match p.get_step_at_time elapsed with
      | some info => info.1
      | none => ex.current_step_index
    error_message :=
      "Failed to set " ++ (if p.isCurrentMode then "current" else "voltage")
    state := .error }

/-- The executor state after `start()` fails to program the initial limit. -/
def startErrState (ex : RampExecutor) : RampExecutor :=
  { ex with
    error_message := "Failed to set initial power supply limits"
    state := .error }

/-- Whenever `start()` proceeds past its state checks with a supply
attached, the very first command of the whole run (whether or not the run
loop is ever launched) is the protective limit command. -/
theorem fullRun_trace_shape (ex : RampExecutor) (oracle : PSCmd → Bool)
    (now : ℚ) (ticks : List ℚ) (p : RampProfile)
    (hp : ex.profile = some p) (hps : ex.has_power_supply = true)
    (hnr : ex.state ≠ .running) (hnpz : ex.state ≠ .paused) :
    ∃ rest, (fullRun ex oracle now ticks).2 = limitCmd p :: rest := by
  unfold fullRun RampExecutor.start limitCmd RampProfile.isCurrentMode
  simp only [hp, hps, if_neg hnr, if_neg hnpz]
  by_cases hm : p.control_mode = "current" <;>
    simp only [hm, ite_true, ite_false, if_true, if_false, reduceIte]
  · by_cases ho : oracle (PSCmd.set_voltage p.voltage_limit) <;> simp [ho]
  · by_cases ho : oracle (PSCmd.set_current p.current_limit) <;> simp [ho]

/-- C5: with a loaded profile and an attached power supply, `start()`
programs the protective opposite-mode limit before any setpoint command is
issued anywhere in the run (in current mode `set_voltage(voltage_limit)`
precedes every `set_current`; in voltage mode `set_current(current_limit)`
precedes every `set_voltage`), and if the initial limit command raises,
`start()` returns false, the state becomes Error, and the scheduling
thread is never launched. -/
theorem claim_C5_protective_limit_first (ex : RampExecutor)
    (oracle : PSCmd → Bool) (now : ℚ) (ticks : List ℚ) (p : RampProfile)
    (hp : ex.profile = some p) (hps : ex.has_power_supply = true)
    (hnr : ex.state ≠ .running) (hnpz : ex.state ≠ .paused) :
    (p.control_mode = "current" →
      ∀ i v, (fullRun ex oracle now ticks).2.get? i = some (.set_current v) →
        ∃ j, j < i ∧
          (fullRun ex oracle now ticks).2.get? j = some (.set_voltage p.voltage_limit)) ∧
    (p.control_mode ≠ "current" →
      ∀ i v, (fullRun ex oracle now ticks).2.get? i = some (.set_voltage v) →
        ∃ j, j < i ∧
          (fullRun ex oracle now ticks).2.get? j = some (.set_current p.current_limit)) ∧
    (oracle (limitCmd p) = false →
      ex.start oracle now = (false, startErrState ex, [limitCmd p], false)) := by
  obtain ⟨rest, hshape⟩ := fullRun_trace_shape ex oracle now ticks p hp hps hnr hnpz
  refine ⟨?_, ?_, ?_⟩
  · intro hm i v hi
    have hcmd : limitCmd p = .set_voltage p.voltage_limit := by
      simp [limitCmd, RampProfile.isCurrentMode, hm]
    refine ⟨0, ?_, ?_⟩
    · rcases i with _ | i
      · rw [hshape, hcmd] at hi
        simp at hi
      · exact Nat.succ_pos i
    · rw [hshape, hcmd]
      rfl
  · intro hm i v hi
    have hcmd : limitCmd p = .set_current p.current_limit := by
      simp [limitCmd, RampProfile.isCurrentMode, hm]
    refine ⟨0, ?_, ?_⟩
    · rcases i with _ | i
      · rw [hshape, hcmd] at hi
        simp at hi
      · exact Nat.succ_pos i
    · rw [hshape, hcmd]
      rfl
  · intro ho
    unfold RampExecutor.start startErrState
    simp only [hp, hps, if_neg hnr, if_neg hnpz]
    unfold limitCmd RampProfile.isCurrentMode at ho
    by_cases hm : p.control_mode = "current" <;>
      simp_all [limitCmd, RampProfile.isCurrentMode]

/-- An idle executor with `profileC1` loaded and a power supply attached. -/
def exStart : RampExecutor :=
  { has_power_supply := true
    state := .idle
    profile := some profileC1 }

/-- Witness for C5 at a concrete idle executor in voltage mode. -/
theorem claim_C5_witness :
    exStart.profile = some profileC1 ∧ exStart.has_power_supply = true ∧
    exStart.state ≠ .running ∧ exStart.state ≠ .paused ∧
    ((profileC1.control_mode = "current" →
      ∀ i v, (fullRun exStart (fun _ => true) 0 []).2.get? i = some (.set_current v) →
        ∃ j, j < i ∧
          (fullRun exStart (fun _ => true) 0 []).2.get? j
            = some (.set_voltage profileC1.voltage_limit)) ∧
    (profileC1.control_mode ≠ "current" →
      ∀ i v, (fullRun exStart (fun _ => true) 0 []).2.get? i = some (.set_voltage v) →
        ∃ j, j < i ∧
          (fullRun exStart (fun _ => true) 0 []).2.get? j
            = some (.set_current profileC1.current_limit)) ∧
    ((fun _ => true : PSCmd → Bool) (limitCmd profileC1) = false →
      exStart.start (fun _ => true) 0
        = (false, startErrState exStart, [limitCmd profileC1], false))) :=
  ⟨rfl, rfl, by decide, by decide,
   claim_C5_protective_limit_first exStart (fun _ => true) 0 [] profileC1
     rfl rfl (by decide) (by decide)⟩

/-- The run loop issues `output_off` only on the normal-completion path,
which also moves the state to COMPLETED: a loop that ends in any other
state (stopped, or ERROR after a failed command) never reaches the
zero/off block. -/
theorem runLoop_output_off_completed (oracle : PSCmd → Bool) :
    ∀ (ticks : List ℚ) (ex : RampExecutor),
      PSCmd.output_off ∈ (runLoop oracle ex ticks).2 →
      (runLoop oracle ex ticks).1.state = .completed
  | [], ex, h => by simp [runLoop] at h
  | e :: rest, ex, h => by
    rcases hp : ex.profile with _ | p
    · simp only [runLoop, hp] at h ⊢
      simp [completePath]
    · simp only [runLoop, hp] at h ⊢
      by_cases htot : e ≥ p.get_total_duration
      · rw [if_pos htot] at h ⊢
        simp [completePath]
      · rw [if_neg htot] at h ⊢
        by_cases hps : ex.has_power_supply
        · simp only [hps, ite_true, if_true, reduceIte] at h ⊢
          by_cases ho :
            oracle ((fun sp => if (p.control_mode = "current" : Bool)
              then PSCmd.set_current sp else PSCmd.set_voltage sp)
              (p.get_setpoint_at_time e)) = true
          · simp only [ho, ite_true, if_true, reduceIte] at h ⊢
            rcases List.mem_cons.mp h with hbad | hmem
            · revert hbad
              split <;> simp
            · exact runLoop_output_off_completed oracle rest _ hmem
          · simp only [ho, Bool.false_eq_true, ite_false, if_false, reduceIte,
              List.mem_singleton] at h ⊢
            revert h
            split <;> simp
        · simp only [hps, Bool.false_eq_true, ite_false, if_false, reduceIte] at h ⊢
          exact runLoop_output_off_completed oracle rest _ h

/-- C6: when a power-supply setpoint command raises during the scheduling
loop it is not retried: the loop returns immediately with exactly that one
command issued on the failing tick, the error message is recorded and the
state becomes Error — no zero-setpoint or output-off command follows; and
the zero/off block of the loop is reached only on normal completion
(the run loop's final state is then Completed), never on Error. -/
theorem claim_C6_command_failure_not_retried :
    (∀ (ex : RampExecutor) (oracle : PSCmd → Bool) (p : RampProfile)
        (elapsed : ℚ) (rest : List ℚ),
      ex.profile = some p → ex.has_power_supply = true →
      ¬ elapsed ≥ p.get_total_duration →
      oracle (loopSetpointCmd p (p.get_setpoint_at_time elapsed)) = false →
      runLoop oracle ex (elapsed :: rest)
        = (runLoopErrState ex p elapsed,
           [loopSetpointCmd p (p.get_setpoint_at_time elapsed)])) ∧
    (∀ (oracle : PSCmd → Bool) (ex : RampExecutor) (ticks : List ℚ),
      PSCmd.output_off ∈ (runLoop oracle ex ticks).2 →
      (runLoop oracle ex ticks).1.state = .completed) := by
  constructor
  · intro ex oracle p elapsed rest hp hps htot hcmd
    simp only [loopSetpointCmd, RampProfile.isCurrentMode] at hcmd
    simp only [runLoop, hp, hps, if_neg htot, ite_true, if_true, reduceIte, hcmd,
      Bool.false_eq_true, ite_false, if_false]
    simp [runLoopErrState, loopSetpointCmd, RampProfile.isCurrentMode, hp, hps]
  · exact fun oracle ex ticks => runLoop_output_off_completed oracle ticks ex

/-- An executor mid-run of `profileC1` (running state, supply attached). -/
def exRunning : RampExecutor :=
  { has_power_supply := true
    state := .running
    profile := some profileC1
    start_time := some 0 }

/-- Witness for C6: with an oracle failing every command, the first tick of
the loop at elapsed 1 issues exactly one `set_voltage` command and returns
in the Error state. -/
theorem claim_C6_witness :
    exRunning.profile = some profileC1 ∧ exRunning.has_power_supply = true ∧
    ¬ (1 : ℚ) ≥ profileC1.get_total_duration ∧
    (fun _ => false : PSCmd → Bool)
        (loopSetpointCmd profileC1 (profileC1.get_setpoint_at_time 1)) = false ∧
    runLoop (fun _ => false) exRunning [1]
      = (runLoopErrState exRunning profileC1 1,
         [loopSetpointCmd profileC1 (profileC1.get_setpoint_at_time 1)]) :=
  have htot : ¬ (1 : ℚ) ≥ profileC1.get_total_duration := by
    norm_num [RampProfile.get_total_duration, profileC1]
  ⟨rfl, rfl, htot, rfl,
   claim_C6_command_failure_not_retried.1 exRunning (fun _ => false) profileC1 1 []
     rfl rfl htot rfl⟩

/-! ### SafetyMonitor lemmas -/

/-- A one-entry reading list found under its own name. -/
theorem find_self (s : String) (r : Option ℚ) :
    ([(s, r)].find? (fun e => e.1 = s)) = some (s, r) := by
  simp [List.find?]

/-- A sensor with no entry in the readings is skipped unchanged. -/
theorem checkSensor_skip (m : SafetyMonitor) (s n : String) (r : Option ℚ)
    (lim : ℚ) (h : n ≠ s) : m.checkSensor [(s, r)] n lim = (false, m) := by
  unfold SafetyMonitor.checkSensor
  have hsn : ¬ (s = n) := fun e => h (Eq.symm e)
  have hfind : ([(s, r)].find? (fun e => e.1 = n)) = none := by
    simp [List.find?, hsn]
  rw [hfind]
  rfl

/-- Folding the per-sensor check over configured sensors none of which is
named in the readings leaves the accumulator unchanged. -/
theorem checkFold_skip_all (s : String) (r : Option ℚ) :
    ∀ (l : List (String × ℚ)) (b : Bool) (m : SafetyMonitor),
      l.filter (fun e => e.1 = s) = [] →
      l.foldl (checkFold [(s, r)]) (b, m) = (b, m)
  | [], _, _, _ => rfl
  | (n, lim) :: rest, b, m, h => by
    rw [List.filter_cons] at h
    by_cases hn : n = s
    · simp [hn] at h
    · simp only [hn, decide_False, Bool.false_eq_true, if_false, ite_false,
        reduceIte] at h
      rw [List.foldl_cons]
      have hstep : checkFold [(s, r)] (b, m) (n, lim) = (b, m) := by
        simp [checkFold, checkSensor_skip m s n r lim hn]
      rw [hstep]
      exact checkFold_skip_all s r rest b m h

/-- Folding the per-sensor check over a configured-sensor list whose only
entry named in the readings is `(s, L)` reduces to the single check of
`s`. -/
theorem checkFold_single (s : String) (L : ℚ) (r : Option ℚ) :
    ∀ (l : List (String × ℚ)) (b : Bool) (m : SafetyMonitor),
      l.filter (fun e => e.1 = s) = [(s, L)] →
      l.foldl (checkFold [(s, r)]) (b, m)
        = (b || (m.checkSensor [(s, r)] s L).1, (m.checkSensor [(s, r)] s L).2)
  | [], _, _, h => by simp at h
  | (n, lim) :: rest, b, m, h => by
    rw [List.filter_cons] at h
    by_cases hn : n = s
    · simp only [hn, decide_True, if_true, ite_true, reduceIte, List.cons.injEq,
        Prod.mk.injEq] at h
      rw [List.foldl_cons]
      have hstep : checkFold [(s, r)] (b, m) (n, lim)
          = (b || (m.checkSensor [(s, r)] s L).1, (m.checkSensor [(s, r)] s L).2) := by
        rw [hn, h.1.2]
        rfl
      rw [hstep]
      exact checkFold_skip_all s r rest _ _ h.2
    · simp only [hn, decide_False, Bool.false_eq_true, if_false, ite_false,
        reduceIte] at h
      rw [List.foldl_cons]
      have hstep : checkFold [(s, r)] (b, m) (n, lim) = (b, m) := by
        simp [checkFold, checkSensor_skip m s n r lim hn]
      rw [hstep]
      exact checkFold_single s L r rest b m h

/-- With the monitor enabled and `s` the only configured sensor named in
the readings, `check_limits` is the single per-sensor check of `s`. -/
theorem check_limits_single (m : SafetyMonitor) (s : String) (L : ℚ)
    (r : Option ℚ) (hen : m.enabled = true)
    (hf : m.temperature_limits.filter (fun e => e.1 = s) = [(s, L)]) :
    m.check_limits [(s, r)]
      = (! (m.checkSensor [(s, r)] s L).1, (m.checkSensor [(s, r)] s L).2) := by
  unfold SafetyMonitor.check_limits
  rw [if_neg (by simp [hen]), checkFold_single s L r _ false m hf]
  simp

/-- The watchdog sensor triggers on any single violating reading. -/
theorem checkSensor_watchdog_trigger (m : SafetyMonitor) (s : String)
    (L v : ℚ) (hw : m.watchdog_sensor = some s) (hv : L ≤ v)
    (hs : v ≠ -9999) :
    m.checkSensor [(s, some v)] s L = (true, m.triggerShutdown s v L) := by
  unfold SafetyMonitor.checkSensor
  rw [find_self]
  simp [hs, hv, hw, ge_iff_le]

/-- A violating reading of a non-watchdog sensor below the debounce
threshold only bumps the consecutive-violation counter. -/
theorem checkSensor_debounce_below (m : SafetyMonitor) (s : String)
    (L v : ℚ) (hw : m.watchdog_sensor ≠ some s) (hv : L ≤ v)
    (hs : v ≠ -9999) (hd : m.violation_counts s + 1 < m.debounce_count) :
    m.checkSensor [(s, some v)] s L
      = (false, m.setCount s (m.violation_counts s + 1)) := by
  unfold SafetyMonitor.checkSensor
  rw [find_self]
  simp [hs, hv, hw, ge_iff_le, not_le.mpr hd]

/-- A violating reading of a non-watchdog sensor whose counter reaches the
debounce threshold triggers. -/
theorem checkSensor_debounce_reach (m : SafetyMonitor) (s : String)
    (L v : ℚ) (hw : m.watchdog_sensor ≠ some s) (hv : L ≤ v)
    (hs : v ≠ -9999) (hd : m.debounce_count ≤ m.violation_counts s + 1) :
    m.checkSensor [(s, some v)] s L
      = (true, (m.setCount s (m.violation_counts s + 1)).triggerShutdown s v L) := by
  unfold SafetyMonitor.checkSensor
  rw [find_self]
  simp [hs, hv, hw, ge_iff_le, hd]

/-- C8: for every SafetyMonitor whose configured limits name `s` once, with
debounce_count = 3 and `s` not the watchdog, `check_limits` returns true
(no trigger) on the first and second consecutive violating readings of `s`
and triggers (returns false) only on the third; a sensor designated as the
watchdog triggers a shutdown on its first violating reading regardless of
the configured debounce count. -/
theorem claim_C8_debounce_and_watchdog :
    (∀ (m : SafetyMonitor) (s : String) (L v : ℚ),
      m.enabled = true → m.debounce_count = 3 →
      m.temperature_limits.filter (fun e => e.1 = s) = [(s, L)] →
      m.watchdog_sensor ≠ some s → m.violation_counts s = 0 →
      L ≤ v → v ≠ -9999 →
      (m.check_limits [(s, some v)]).1 = true ∧
      ((m.check_limits [(s, some v)]).2.check_limits [(s, some v)]).1 = true ∧
      (((m.check_limits [(s, some v)]).2.check_limits [(s, some v)]).2.check_limits
          [(s, some v)]).1 = false) ∧
    (∀ (m : SafetyMonitor) (w : String) (L v : ℚ),
      m.enabled = true →
      m.temperature_limits.filter (fun e => e.1 = w) = [(w, L)] →
      m.watchdog_sensor = some w → L ≤ v → v ≠ -9999 →
      (m.check_limits [(w, some v)]).1 = false) := by
  constructor
  · intro m s L v hen hdb hf hw hc0 hv hsent
    have h1 : m.check_limits [(s, some v)] = (true, m.setCount s 1) := by
      rw [check_limits_single m s L (some v) hen hf,
        checkSensor_debounce_below m s L v hw hv hsent (by omega)]
      simp [hc0]
    have h2 : (m.setCount s 1).check_limits [(s, some v)]
        = (true, (m.setCount s 1).setCount s 2) := by
      rw [check_limits_single (m.setCount s 1) s L (some v) hen hf,
        checkSensor_debounce_below (m.setCount s 1) s L v hw hv hsent
          (by simp only [SafetyMonitor.setCount]; simp; omega)]
      simp [SafetyMonitor.setCount]
    have h3 : (((m.setCount s 1).setCount s 2).check_limits [(s, some v)]).1
        = false := by
      rw [check_limits_single ((m.setCount s 1).setCount s 2) s L (some v) hen hf,
        checkSensor_debounce_reach ((m.setCount s 1).setCount s 2) s L v hw hv hsent
          (by simp only [SafetyMonitor.setCount]; simp; omega)]
      rfl
    refine ⟨by simp [h1], by simp [h1, h2], by simp [h1, h2, h3]⟩
  · intro m w L v hen hf hw hv hsent
    rw [check_limits_single m w L (some v) hen hf,
      checkSensor_watchdog_trigger m w L v hw hv hsent]
    rfl

/-- The SafetyMonitor configuration of TestSafetyMonitorWatchdog: limits
TC1 = TC2 = 200, watchdog TC1, debounce 3. -/
def monitorC8 : SafetyMonitor :=
  { has_power_supply := true
    temperature_limits := [("TC1", 200), ("TC2", 200)]
    watchdog_sensor := some "TC1"
    debounce_count := 3 }

/-- Witness for C8: the non-watchdog sensor TC2 reading 210 trips only on
the third consecutive call; the watchdog TC1 reading 210 trips at once. -/
theorem claim_C8_witness :
    (monitorC8.enabled = true ∧ monitorC8.debounce_count = 3 ∧
     monitorC8.temperature_limits.filter (fun e => e.1 = "TC2") = [("TC2", 200)] ∧
     monitorC8.watchdog_sensor ≠ some "TC2" ∧
     monitorC8.violation_counts "TC2" = 0 ∧
     (200 : ℚ) ≤ 210 ∧ (210 : ℚ) ≠ -9999 ∧
     (monitorC8.check_limits [("TC2", some 210)]).1 = true ∧
     ((monitorC8.check_limits [("TC2", some 210)]).2.check_limits
        [("TC2", some 210)]).1 = true ∧
     (((monitorC8.check_limits [("TC2", some 210)]).2.check_limits
        [("TC2", some 210)]).2.check_limits [("TC2", some 210)]).1 = false) ∧
    (monitorC8.temperature_limits.filter (fun e => e.1 = "TC1") = [("TC1", 200)] ∧
     monitorC8.watchdog_sensor = some "TC1" ∧
     (monitorC8.check_limits [("TC1", some 210)]).1 = false) := by
  have hle : (200 : ℚ) ≤ 210 := by norm_num
  have hne : (210 : ℚ) ≠ -9999 := by norm_num
  have hd := claim_C8_debounce_and_watchdog.1 monitorC8 "TC2" 200 210
    rfl rfl (by decide) (by decide) rfl hle hne
  have hwd := claim_C8_debounce_and_watchdog.2 monitorC8 "TC1" 200 210
    rfl (by decide) rfl hle hne
  exact ⟨⟨rfl, rfl, by decide, by decide, rfl, hle, hne, hd.1, hd.2.1, hd.2.2⟩,
    by decide, rfl, hwd⟩

/-! ### Step construction and serialization lemmas -/

/-- `__post_init__` raises no error exactly when the step invariant holds. -/
theorem post_init_error_none_iff (s : RampStep) :
    s.post_init_error = none ↔ s.invariant := by
  unfold RampStep.post_init_error RampStep.invariant
  constructor
  · intro h
    by_cases c1 : s.step_type ≠ "ramp" ∧ s.step_type ≠ "hold"
    · rw [if_pos c1] at h
      exact absurd h (by simp)
    · rw [if_neg c1] at h
      by_cases c2 : s.duration_sec ≤ 0
      · rw [if_pos c2] at h
        exact absurd h (by simp)
      · rw [if_neg c2] at h
        by_cases c3 : s.step_type = "ramp" ∧ s.target_voltage = none ∧
            s.target_current = none
        · rw [if_pos c3] at h
          exact absurd h (by simp)
        · rw [if_neg c3] at h
          by_cases c4 : s.target_voltage.any (· < 0)
          · rw [if_pos c4] at h
            exact absurd h (by simp)
          · rw [if_neg c4] at h
            by_cases c5 : s.target_current.any (· < 0)
            · rw [if_pos c5] at h
              exact absurd h (by simp)
            · refine ⟨?_, not_le.mp c2, ?_, ?_, ?_⟩
              · rcases not_and_or.mp c1 with hc | hc
                · exact Or.inl (not_not.mp hc)
                · exact Or.inr (not_not.mp hc)
              · intro hr
                rcases hv : s.target_voltage with _ | x
                · rcases hc : s.target_current with _ | y
                  · exact absurd ⟨hr, hv, hc⟩ c3
                  · exact Or.inr (by simp [hc])
                · exact Or.inl (by simp [hv])
              · intro x hx
                rw [hx] at c4
                simpa using not_lt.mp (by simpa using c4)
              · intro x hx
                rw [hx] at c5
                simpa using not_lt.mp (by simpa using c5)
  · rintro ⟨h1, h2, h3, h4, h5⟩
    rw [if_neg (by rcases h1 with h | h <;> simp [h]), if_neg (not_le.mpr h2),
      if_neg, if_neg, if_neg]
    · rcases hc : s.target_current with _ | y
      · simp
      · simp [not_lt.mpr (h5 y hc)]
    · rcases hv : s.target_voltage with _ | x
      · simp
      · simp [not_lt.mpr (h4 x hv)]
    · rintro ⟨hr, hv, hc⟩
      rcases h3 hr with h | h
      · exact h hv
      · exact h hc

/-- `mkRampStep` computed through `post_init_error`. -/
theorem mkRampStep_eq (st : String) (d : ℚ) (tv tc : Option ℚ) :
    mkRampStep st d tv tc
      = match RampStep.post_init_error ⟨st, d, tv, tc⟩ with
        | some e => .error e
        | none => .ok ⟨st, d, tv, tc⟩ := rfl

/-- Construction succeeds exactly on invariant-satisfying field tuples, and
then returns precisely that step. -/
theorem mkRampStep_ok_iff (st : String) (d : ℚ) (tv tc : Option ℚ)
    (s : RampStep) :
    mkRampStep st d tv tc = .ok s ↔
      (RampStep.invariant ⟨st, d, tv, tc⟩ ∧ s = ⟨st, d, tv, tc⟩) := by
  rw [mkRampStep_eq]
  rcases h : RampStep.post_init_error ⟨st, d, tv, tc⟩ with _ | e
  · have hinv := (post_init_error_none_iff _).mp h
    simp [hinv, eq_comm]
  · have hninv : ¬ RampStep.invariant ⟨st, d, tv, tc⟩ := by
      intro hinv
      rw [(post_init_error_none_iff _).mpr hinv] at h
      exact absurd h (by simp)
    simp [hninv]

/-- Violating field tuples make construction raise. -/
theorem mkRampStep_error_of_not_invariant (st : String) (d : ℚ)
    (tv tc : Option ℚ) (h : ¬ RampStep.invariant ⟨st, d, tv, tc⟩) :
    ∃ e, mkRampStep st d tv tc = .error e := by
  rw [mkRampStep_eq]
  rcases he : RampStep.post_init_error ⟨st, d, tv, tc⟩ with _ | e
  · exact absurd ((post_init_error_none_iff _).mp he) h
  · exact ⟨e, rfl⟩

/-- A constructible step round-trips through its dictionary form. -/
theorem step_roundtrip (s : RampStep) (h : s.invariant) :
    RampStep.from_dict s.to_dict = .ok s := by
  unfold RampStep.from_dict RampStep.to_dict
  simp only [Option.getD_some]
  exact (mkRampStep_ok_iff _ _ _ _ _).mpr ⟨h, rfl⟩

/-- A list of constructible steps round-trips elementwise. -/
theorem mapM_step_roundtrip :
    ∀ (l : List RampStep), (∀ s ∈ l, s.invariant) →
      (l.map RampStep.to_dict).mapM RampStep.from_dict = Except.ok l
  | [], _ => rfl
  | s :: rest, h => by
    simp only [List.map_cons, List.mapM_cons]
    rw [step_roundtrip s (h s (by simp)),
      mapM_step_roundtrip rest (fun x hx => h x (by simp [hx]))]
    rfl

/-- C9: for every profile whose steps are constructible (they satisfy the
`__post_init__` invariant: valid type, positive duration, a target for a
ramp, non-negative targets), `from_dict (to_dict p)` succeeds and returns a
profile equal to `p` — equal name, description, control_mode,
start_voltage, start_current, current_limit, voltage_limit, and an
elementwise-equal step list. -/
theorem claim_C9_roundtrip (p : RampProfile)
    (h : ∀ s ∈ p.steps, s.invariant) :
    RampProfile.from_dict p.to_dict = Except.ok p := by
  unfold RampProfile.from_dict RampProfile.to_dict
  simp only [Option.getD_some]
  rw [mapM_step_roundtrip p.steps h]
  rfl

/-- Witness for C9 at the concrete profile of claim C1. -/
theorem claim_C9_witness :
    (∀ s ∈ profileC1.steps, s.invariant) ∧
    RampProfile.from_dict profileC1.to_dict = Except.ok profileC1 :=
  ⟨by decide, claim_C9_roundtrip profileC1 (by decide)⟩

/-- C10: step construction validates eagerly and raises rather than
returning a structured result — constructing a `RampStep` (directly, or
through `add_ramp`/`add_hold`) raises ValueError whenever `duration_sec`
is not strictly positive, whenever a ramp step has neither target, and
whenever a supplied target is negative; every step that construction lets
through satisfies the invariant, so no violating step can ever reach a
profile's step list through these operations. -/
theorem claim_C10_eager_validation :
    (∀ (st : String) (d : ℚ) (tv tc : Option ℚ),
      (d ≤ 0 → ∃ e, mkRampStep st d tv tc = .error e) ∧
      (st = "ramp" → tv = none → tc = none →
        ∃ e, mkRampStep st d tv tc = .error e) ∧
      (∀ x, tv = some x → x < 0 → ∃ e, mkRampStep st d tv tc = .error e) ∧
      (∀ x, tc = some x → x < 0 → ∃ e, mkRampStep st d tv tc = .error e) ∧
      (∀ s, mkRampStep st d tv tc = .ok s → s.invariant)) ∧
    (∀ (p : RampProfile) (tval : Option ℚ) (d : ℚ) (tv tc : Option ℚ),
      (d ≤ 0 → ∃ e, p.add_ramp tval d tv tc = .error e) ∧
      (∀ p', p.add_ramp tval d tv tc = .ok p' →
        (∀ s ∈ p.steps, s.invariant) → ∀ s ∈ p'.steps, s.invariant)) ∧
    (∀ (p : RampProfile) (d : ℚ),
      (d ≤ 0 → ∃ e, p.add_hold d = .error e) ∧
      (∀ p', p.add_hold d = .ok p' →
        (∀ s ∈ p.steps, s.invariant) → ∀ s ∈ p'.steps, s.invariant)) := by
  refine ⟨fun st d tv tc => ⟨?_, ?_, ?_, ?_, ?_⟩, fun p tval d tv tc => ⟨?_, ?_⟩,
    fun p d => ⟨?_, ?_⟩⟩
  · intro hd
    exact mkRampStep_error_of_not_invariant st d tv tc
      (fun hinv => absurd hinv.2.1 (not_lt.mpr hd))
  · intro hst hv hc
    refine mkRampStep_error_of_not_invariant st d tv tc (fun hinv => ?_)
    rcases hinv.2.2.1 hst with h | h
    · exact h hv
    · exact h hc
  · intro x hx hneg
    refine mkRampStep_error_of_not_invariant st d tv tc (fun hinv => ?_)
    exact absurd (hinv.2.2.2.1 x hx) (not_le.mpr hneg)
  · intro x hx hneg
    refine mkRampStep_error_of_not_invariant st d tv tc (fun hinv => ?_)
    exact absurd (hinv.2.2.2.2 x hx) (not_le.mpr hneg)
  · intro s hs
    obtain ⟨hinv, rfl⟩ := (mkRampStep_ok_iff st d tv tc s).mp hs
    exact hinv
  · intro hd
    unfold RampProfile.add_ramp
    cases htr : resolveTarget tval tv tc with
    | error e => exact ⟨e, rfl⟩
    | ok v =>
      dsimp only
      by_cases hm : p.control_mode = "current"
      · obtain ⟨e, he⟩ := mkRampStep_error_of_not_invariant "ramp" d none (some v)
          (fun hinv => absurd hinv.2.1 (not_lt.mpr hd))
        rw [if_pos hm, he]
        exact ⟨e, rfl⟩
      · obtain ⟨e, he⟩ := mkRampStep_error_of_not_invariant "ramp" d (some v) none
          (fun hinv => absurd hinv.2.1 (not_lt.mpr hd))
        rw [if_neg hm, he]
        exact ⟨e, rfl⟩
  · intro p' h hp s hs
    unfold RampProfile.add_ramp at h
    cases htr : resolveTarget tval tv tc with
    | error e => rw [htr] at h; exact absurd h (by simp)
    | ok v =>
      rw [htr] at h
      dsimp only at h
      by_cases hm : p.control_mode = "current" <;> [rw [if_pos hm] at h;
        rw [if_neg hm] at h]
      · cases hmk : mkRampStep "ramp" d none (some v) with
        | error e => rw [hmk] at h; exact absurd h (by simp)
        | ok step =>
          rw [hmk] at h
          obtain ⟨hinv, rfl⟩ := (mkRampStep_ok_iff _ _ _ _ _).mp hmk
          obtain rfl : p' = p.add_step _ := (Except.ok.injEq .. ▸ h).symm
          rcases List.mem_append.mp hs with hmem | hmem
          · exact hp s hmem
          · rw [List.mem_singleton.mp hmem]
            exact hinv
      · cases hmk : mkRampStep "ramp" d (some v) none with
        | error e => rw [hmk] at h; exact absurd h (by simp)
        | ok step =>
          rw [hmk] at h
          obtain ⟨hinv, rfl⟩ := (mkRampStep_ok_iff _ _ _ _ _).mp hmk
          obtain rfl : p' = p.add_step _ := (Except.ok.injEq .. ▸ h).symm
          rcases List.mem_append.mp hs with hmem | hmem
          · exact hp s hmem
          · rw [List.mem_singleton.mp hmem]
            exact hinv
  · intro hd
    unfold RampProfile.add_hold
    obtain ⟨e, he⟩ := mkRampStep_error_of_not_invariant "hold" d none none
      (fun hinv => absurd hinv.2.1 (not_lt.mpr hd))
    rw [he]
    exact ⟨e, rfl⟩
  · intro p' h hp s hs
    unfold RampProfile.add_hold at h
    cases hmk : mkRampStep "hold" d none none with
    | error e => rw [hmk] at h; exact absurd h (by simp)
    | ok step =>
      rw [hmk] at h
      obtain ⟨hinv, rfl⟩ := (mkRampStep_ok_iff _ _ _ _ _).mp hmk
      obtain rfl : p' = p.add_step _ := (Except.ok.injEq .. ▸ h).symm
      rcases List.mem_append.mp hs with hmem | hmem
      · exact hp s hmem
      · rw [List.mem_singleton.mp hmem]
        exact hinv

/-- Witness for C10: concrete raising constructions (zero duration, ramp
without target, negative targets, add_ramp with zero duration) and a
concrete accepted step list satisfying the invariant. -/
theorem claim_C10_witness :
    (∃ e, mkRampStep "hold" 0 none none = Except.error e) ∧
    (∃ e, mkRampStep "ramp" 5 none none = Except.error e) ∧
    (∃ e, mkRampStep "ramp" 5 (some (-1)) none = Except.error e) ∧
    (∃ e, mkRampStep "ramp" 5 none (some (-2)) = Except.error e) ∧
    (∀ s, mkRampStep "ramp" 5 (some 3) none = Except.ok s → s.invariant) ∧
    (∃ e, profileC1.add_ramp (some 4) 0 none none = Except.error e) ∧
    (∀ s ∈ (profileC1.add_step ⟨"hold", 3, none, none⟩).steps, s.invariant) :=
  ⟨(claim_C10_eager_validation.1 "hold" 0 none none).1 le_rfl,
   (claim_C10_eager_validation.1 "ramp" 5 none none).2.1 rfl rfl rfl,
   (claim_C10_eager_validation.1 "ramp" 5 (some (-1)) none).2.2.1 (-1) rfl
     (by norm_num),
   (claim_C10_eager_validation.1 "ramp" 5 none (some (-2))).2.2.2.1 (-2) rfl
     (by norm_num),
   (claim_C10_eager_validation.1 "ramp" 5 (some 3) none).2.2.2.2,
   (claim_C10_eager_validation.2.1 profileC1 (some 4) 0 none none).1 le_rfl,
   (claim_C10_eager_validation.2.2 profileC1 3).2
     (profileC1.add_step ⟨"hold", 3, none, none⟩) (by rfl) (by decide)⟩

end TDS
